import Mathlib

/-!
Verification of the BenchExec tool-info adapter contract
(`benchexec/tools/template.py`): the `Task` and `ResourceLimits` value
objects, the default `cmdline`, the version probe `_version_from_tool`,
the defensive-copy behaviour of the `Task` constructor, and the
abstract-method enforcement of the two adapter base classes.

Python values that matter for the claims are embedded as follows:
strings are `String`, `None`-able fixed-type fields are `Option _`,
Python truthiness is made explicit (`[]`, `""`, `None`, `0` are falsy),
mutable heap structures (for the defensive-copy claims) are an explicit
`Heap` with references, and failing constructors return `Option`
(`Option.none` models the raised `AssertionError` / `TypeError`).
-/

namespace BenchExec

/-- A Python leaf value of `options`-like structured data: either `None`,
an immutable primitive (int/str/... rendered as a string), or a reference
to a mutable object in the heap. -/
inductive PyVal where
  | pynone : PyVal
  | prim : String → PyVal
  | ref : Nat → PyVal
deriving DecidableEq

/-- The Python heap: address `a` holds a mutable container (list/dict)
of values.  `List (List PyVal)` with positional addressing suffices for
the mutation claims. -/
abbrev Heap := List (List PyVal)

/-- A fully resolved (reference-free) snapshot of a Python value, the
result of `copy.deepcopy`: no later heap mutation can be observed
through it. -/
inductive Tree where
  | pynone : Tree
  | prim : String → Tree
  | node : List Tree → Tree

/-- `copy.deepcopy` restricted to containers of already-copied parts:
copy every element of a container with the given element-copier. -/
def deepcopyList (dc : PyVal → Option Tree) : List PyVal → Option (List Tree)
  | [] => some []
  | v :: vs =>
    match dc v, deepcopyList dc vs with
    | some t, some ts => some (t :: ts)
    | _, _ => Option.none

/-- `copy.deepcopy`: resolve a value through the heap into a snapshot.
Fuel bounds the reference depth (Python's memo handles cycles; here a
cyclic or too-deep structure yields `Option.none`). -/
def deepcopy : Nat → Heap → PyVal → Option Tree
  | _, _, PyVal.pynone => some Tree.pynone
  | _, _, PyVal.prim s => some (Tree.prim s)
  | 0, _, PyVal.ref _ => Option.none
  | Nat.succ f, h, PyVal.ref a =>
    match h.get? a with
    | Option.none => Option.none
    | some obj => Option.map Tree.node (deepcopyList (fun v2 => deepcopy f h v2) obj)

/-- Read a heap container of primitives as the list of its strings:
this is what `tuple(input_files)` observes when the caller passes a
(mutable) list of path strings. -/
def readPrims : List PyVal → Option (List String)
  | [] => some []
  | PyVal.prim s :: vs => Option.map (fun ss => s :: ss) (readPrims vs)
  | PyVal.pynone :: _ => Option.none
  | PyVal.ref _ :: _ => Option.none

/-- `tuple(input_files)` for a caller-supplied heap list of strings. -/
def readStrings (h : Heap) (v : PyVal) : Option (List String) :=
  match v with
  | PyVal.ref a =>
    match h.get? a with
    | some obj => readPrims obj
    | Option.none => Option.none
  | _ => Option.none

/-- In-place mutation of the caller's list object at address `a`
(models `lst[i] = x`, `lst.append`, `lst.clear`, ... as one wholesale
update of the container's contents). -/
def mutateSet (h : Heap) (a : Nat) (obj : List PyVal) : Heap :=
  h.set a obj

/-- Python truthiness of the `input_files` tuple: non-empty. -/
def truthyFiles (l : List String) : Bool :=
  !l.isEmpty

/-- Python truthiness of the `identifier` field: `bool(None) = False`
and `bool("") = False`, a non-empty string is truthy. -/
def truthyIdent : Option String → Bool
  | Option.none => false
  | some s => !s.isEmpty

/-- `BaseTool2.Task`: the namedtuple fields, with `input_files_or_empty`
already the immutable tuple built by `__new__`. -/
structure Task where
  input_files_or_empty : List String
  identifier : Option String
  property_file : Option String
  options : Tree

/-- `Task.__new__`: makes `input_files` an immutable tuple, asserts
`bool(input_files) != bool(identifier)`, deep-copies `options` (the
copy is the `Tree` snapshot the caller already resolved), and stores the
fields.  `Option.none` models the `AssertionError`. -/
def Task.new (input_files : List String) (identifier : Option String)
    (property_file : Option String) (options : Tree) : Option Task :=
  if truthyFiles input_files ≠ truthyIdent identifier then
    some ⟨input_files, identifier, property_file, options⟩
  else
    Option.none

/-- `Task.with_files`: classmethod building a file-based task. -/
def Task.with_files (input_files : List String) (property_file : Option String)
    (options : Tree) : Option Task :=
  Task.new input_files Option.none property_file options

/-- `Task.without_files`: classmethod building an identifier-based task. -/
def Task.without_files (identifier : String) (property_file : Option String)
    (options : Tree) : Option Task :=
  Task.new [] (some identifier) property_file options

/-- `Task.input_files`: `require_input_files` then the tuple; the
`UnsupportedFeatureException` becomes `Except.error` with the message
raised by `require_input_files`. -/
def Task.input_files (t : Task) : Except String (List String) :=
  if t.input_files_or_empty.isEmpty then
    Except.error "Tool does not support tasks without input files"
  else
    Except.ok t.input_files_or_empty

/-- `tuple(s)` for a Python string `s`: the tuple of its one-character
strings (a Python string is an iterable of characters). -/
def pyTupleOfStr (s : String) : List String :=
  s.data.map (fun c => String.mk [c])

/-- `Task.input_files_or_identifier`:
`self.input_files_or_empty or tuple(self.identifier)`.  The `or` takes
the left operand when the tuple is non-empty; otherwise it evaluates
`tuple(self.identifier)`, which iterates the identifier string
character-wise (and raises `TypeError`, modelled `Option.none`, when the
identifier is `None`). -/
def Task.input_files_or_identifier (t : Task) : Option (List String) :=
  if truthyFiles t.input_files_or_empty then
    some t.input_files_or_empty
  else
    match t.identifier with
    | some s => some (pyTupleOfStr s)
    | Option.none => Option.none

/-- `Task.__new__` called with the caller's mutable list of input files
and (possibly mutable) `options`, both living in the heap: reads the
paths via `tuple(...)`, deep-copies `options`, then proceeds as
`Task.new`. -/
def Task.fromHeap (h : Heap) (fuel : Nat) (input_files : PyVal)
    (identifier : Option String) (property_file : Option String)
    (options : PyVal) : Option Task :=
  match readStrings h input_files, deepcopy fuel h options with
  | some files, some opts => Task.new files identifier property_file opts
  | _, _ => Option.none

example : Task.with_files [] Option.none Tree.pynone = Option.none := rfl

/-- `BaseTool2.ResourceLimits`: namedtuple of five fields, each a
positive int or `None` ("no limit"). -/
structure ResourceLimits where
  cputime : Option Nat
  cputime_hard : Option Nat
  walltime : Option Nat
  memory : Option Nat
  cpu_cores : Option Nat
deriving DecidableEq

/-- `ResourceLimits.__new__`: forwards all five fields to the namedtuple
constructor unchanged (the source performs no validation). -/
def ResourceLimits.new (cputime cputime_hard walltime memory cpu_cores : Option Nat) :
    ResourceLimits :=
  ⟨cputime, cputime_hard, walltime, memory, cpu_cores⟩

/-- Default `BaseTool2.cmdline`:
`[executable, *options, *task.input_files_or_identifier]`; propagates
the `TypeError` case of `input_files_or_identifier` as `Option.none`.
`rlimits` is accepted and unused, as in the source. -/
def cmdline (executable : String) (options : List String) (task : Task)
    (rlimits : ResourceLimits) : Option (List String) :=
  Option.map (fun fs => executable :: (options ++ fs))
    task.input_files_or_identifier

/-- The characters `str.strip()` removes (ASCII whitespace: space, tab,
newline, carriage return, vertical tab, form feed). -/
def isPySpace (c : Char) : Bool :=
  c == ' ' || c == '\t' || c == '\n' || c == '\r' || c == '\x0b' || c == '\x0c'

/-- Python `str.strip()`: drop leading and trailing whitespace. -/
def pyStrip (s : String) : String :=
  String.mk (((s.data.dropWhile isPySpace).reverse.dropWhile isPySpace).reverse)

/-- Python `str.splitlines()` on `\n`, `\r\n` and `\r` terminators:
`"a\nb"` gives `["a", "b"]`, a trailing terminator adds no empty line,
`""` gives `[]`. -/
def splitlinesAux : List Char → List Char → List String
  | [], acc => if acc.isEmpty then [] else [String.mk acc.reverse]
  | '\r' :: '\n' :: rest, acc => String.mk acc.reverse :: splitlinesAux rest []
  | '\n' :: rest, acc => String.mk acc.reverse :: splitlinesAux rest []
  | '\r' :: rest, acc => String.mk acc.reverse :: splitlinesAux rest []
  | c :: rest, acc => splitlinesAux rest (c :: acc)

/-- Python `str.splitlines()`. -/
def pySplitlines (s : String) : List String :=
  splitlinesAux s.data []

/-- Python `line.startswith(p)` on the characters of the two strings. -/
def charsStartWith : List Char → List Char → Bool
  | _, [] => true
  | [], _ :: _ => false
  | c :: cs, p :: ps => c == p && charsStartWith cs ps

/-- Python `line.startswith(p)`. -/
def pyStartsWith (line p3 : String) : Bool :=
  charsStartWith line.data p3.data

/-- Python `line[n:]`: drop the first `n` characters. -/
def pyDropChars (line : String) (n : Nat) : String :=
  String.mk (line.data.drop n)

/-- The line-matching step of `_version_from_tool`:
`next((line[len(p):].strip() for line in output.splitlines() if
line.startswith(p)), "")` — the first line of `output` that starts with
the given p3 is kept, the p3 is cut off and the rest stripped;
no matching line gives `""`. -/
def firstMatchingVersionLine (p3 : String) (output : String) : String :=
  match ((pySplitlines output).filter (fun l => pyStartsWith l p3)).head? with
  | some l => pyStrip (pyDropChars l p3.data.length)
  | Option.none => ""

/-- What the launched `[executable, arg]` subprocess produced:
captured stdout and stderr (already decoded to strings, as
`util.decode_to_string` does) and the exit code. -/
structure ProcResult where
  stdout : String
  stderr : String
  returncode : Int
deriving DecidableEq

/-- `BaseTool2._version_from_tool` after the `subprocess.Popen` /
`communicate` call: `launch = Option.none` models the `OSError` branch
(the subprocess failed to launch).  Mirrors the source's order of
checks: stderr-ambiguity first, then the exit code, then output
selection, stripping and the optional line-matching.  The last argument
models `line_p3` with `Option.none` for the default `None`; the
source's `if line_p3:` is false for both `None` and `""`. -/
def version_from_tool (launch : Option ProcResult)
    (use_stderr ignore_stderr : Bool) (p3 : Option String) : String :=
  match launch with
  | Option.none => ""
  | some process =>
    if process.stderr != "" && !use_stderr && !ignore_stderr then
      ""
    else if process.returncode != 0 then
      ""
    else
      let output := pyStrip (if use_stderr then process.stderr else process.stdout)
      match p3 with
      | some pre => if pre != "" then firstMatchingVersionLine pre output else output
      | Option.none => output

/-- The overridable operations of the adapter contract that matter for
instantiation. -/
inductive Method where
  | name : Method
  | executable : Method
  | version : Method
  | cmdline : Method
  | determine_result : Method
deriving DecidableEq

/-- The two generations of the adapter contract. -/
inductive Generation where
  | baseTool2 : Generation
  | baseTool : Generation
deriving DecidableEq

/-- The methods each base class marks `@abstractmethod`: `BaseTool2`
(metaclass `ABCMeta`) marks `name` and `executable`; the legacy
`BaseTool` is a plain class with no abstract methods (its `name` and
`executable` have default bodies). -/
def abstractMethods : Generation → List Method
  | Generation.baseTool2 => [Method.name, Method.executable]
  | Generation.baseTool => []

/-- A tool-info class: the base class it inherits from and the set of
methods it overrides. -/
structure ToolInfoClass where
  base : Generation
  overridden : List Method

/-- Models Python's `ABCMeta` instantiation rule for the declarations in
the source: calling the class succeeds iff every `@abstractmethod` of
the base class is overridden (a plain class always instantiates). -/
def instantiable (c : ToolInfoClass) : Bool :=
  (abstractMethods c.base).all (fun m => c.overridden.contains m)

/-- Legacy `BaseTool.name` default body: returns the placeholder string
at call time instead of failing at instantiation. -/
def legacyNameDefault : String :=
  "UNKOWN"

/-- The adapter's (or harness's) later view of a constructed task's
`options` field: the stored snapshot.  The current heap is a parameter
to make explicit that reading the stored deep copy never consults the
possibly-mutated heap. -/
def optionsView (t : Task) (current : Heap) : Tree :=
  t.options

/-! Helper lemmas shared by several theorems. -/

theorem get?_set_self_of_lt {α : Type} (l : List α) (n : Nat) (x : α)
    (h : n < l.length) : (l.set n x).get? n = some x := by
  induction l generalizing n with
  | nil => cases h
  | cons y ys ih =>
    cases n with
    | zero => rfl
    | succ k => exact ih k (Nat.lt_of_succ_lt_succ h)

theorem Task.new_eq_some {files : List String} {id : Option String}
    {pf : Option String} {opts : Tree} {t : Task}
    (h : Task.new files id pf opts = some t) :
    truthyFiles files ≠ truthyIdent id ∧ t = ⟨files, id, pf, opts⟩ := by
  unfold Task.new at h
  split at h
  case isTrue hc => exact ⟨hc, (Option.some.injEq _ _ ▸ h).symm⟩
  case isFalse => cases h

theorem readPrims_map (files : List String) :
    readPrims (files.map PyVal.prim) = some files := by
  induction files with
  | nil => rfl
  | cons f fs ih => simp [readPrims, ih]

theorem head?_filter_eq_find? {α : Type} (p : α → Bool) (l : List α) :
    (l.filter p).head? = l.find? p := by
  induction l with
  | nil => rfl
  | cons x xs ih =>
    by_cases h : p x
    · simp [List.filter_cons, List.find?_cons, h]
    · simp only [Bool.not_eq_true] at h
      simp [List.filter_cons, List.find?_cons, h, ih]

/-! Theorems for the claims. -/

/-- C1: the spec states that `Task.without_files("id")` has
`input_files_or_identifier == ("id",)` — a one-element sequence wrapping
the identifier (which is also what the method's own docstring promises).
The code instead evaluates `tuple(self.identifier)`, which iterates the
identifier string character-wise: the result is `("i", "d")`, not
`("id",)`.  The file-based half of the claim does hold. -/
theorem c1_without_files_identifier_split_into_characters :
    (Task.without_files "id" Option.none Tree.pynone).bind Task.input_files_or_identifier
        = some ["i", "d"]
    ∧ (["i", "d"] : List String) ≠ ["id"]
    ∧ (Task.with_files ["a", "b"] Option.none Tree.pynone).bind Task.input_files_or_identifier
        = some ["a", "b"] :=
  ⟨rfl, by decide, rfl⟩

/-- C2, counterexample: `ResourceLimits(cputime=5)` (all other fields
defaulted to `None`) is constructible and carries a soft CPU limit with
no hard one, so the paired-CPU-limit rule is not checked by the
constructor. -/
theorem c2_soft_cpu_limit_without_hard_constructible :
    (ResourceLimits.new (some 5) Option.none Option.none Option.none Option.none).cputime
        = some 5
    ∧ (ResourceLimits.new (some 5) Option.none Option.none Option.none Option.none).cputime_hard
        = Option.none :=
  ⟨rfl, rfl⟩

/-- C2, amended: `ResourceLimits.__new__` performs no validation at all;
it stores the five fields exactly as passed, so every combination of
present/absent CPU limits (including `cputime_hard < cputime`) is
representable.  The both-or-neither rule is only documentation about how
the harness builds limits. -/
theorem c2_resource_limits_constructor_unchecked (a b c d e : Option Nat) :
    (ResourceLimits.new a b c d e).cputime = a
    ∧ (ResourceLimits.new a b c d e).cputime_hard = b
    ∧ (ResourceLimits.new a b c d e).walltime = c
    ∧ (ResourceLimits.new a b c d e).memory = d
    ∧ (ResourceLimits.new a b c d e).cpu_cores = e :=
  ⟨rfl, rfl, rfl, rfl, rfl⟩

/-- C3, counterexample: `Task.with_files([])` does not get as far as an
`input_files` access raising `UnsupportedFeatureException`: the
constructor's assertion (`bool(input_files) != bool(identifier)` with
both falsy) already fails, so no task is constructed at all. -/
theorem c3_with_files_empty_fails_at_construction :
    Task.with_files [] Option.none Tree.pynone = Option.none :=
  rfl

/-- C3, amended: `Task.with_files([])` fails at construction time (the
files-xor-identifier assertion); `Task.with_files(["a"]).input_files`
is `("a",)`; and on every file-less task that can actually be
constructed (via `without_files`), accessing `input_files` raises
`UnsupportedFeatureException` rather than returning an empty value. -/
theorem c3_input_files_access :
    (∀ pf opts, Task.with_files [] pf opts = Option.none)
    ∧ Option.map Task.input_files (Task.with_files ["a"] Option.none Tree.pynone)
        = some (Except.ok ["a"])
    ∧ ∀ id pf opts t, Task.without_files id pf opts = some t →
        t.input_files = Except.error "Tool does not support tasks without input files" := by
  refine ⟨fun pf opts => rfl, rfl, fun id pf opts t h => ?_⟩
  rcases Task.new_eq_some h with ⟨-, ht⟩
  subst ht
  rfl

/-- C3, witness for the amended theorem at the identifier `"x"`. -/
theorem c3_input_files_access_witness :
    Task.input_files ⟨[], some "x", Option.none, Tree.pynone⟩
      = Except.error "Tool does not support tasks without input files" :=
  c3_input_files_access.2.2 "x" Option.none Tree.pynone
    ⟨[], some "x", Option.none, Tree.pynone⟩ rfl

/-- C4, counterexample: the constructor's assertion compares Python
*truthiness*, not nullness, so `Task(input_files=["a"], identifier="")`
constructs successfully even though its file list is non-empty and its
identifier is non-null (the empty string): "exactly one of (input_files
non-empty, identifier non-null)" fails on this constructed value. -/
theorem c4_nonempty_files_with_empty_string_identifier_constructible :
    Task.new ["a"] (some "") Option.none Tree.pynone
        = some ⟨["a"], some "", Option.none, Tree.pynone⟩
    ∧ (["a"] : List String) ≠ []
    ∧ (some "" : Option String) ≠ Option.none :=
  ⟨rfl, by decide, by decide⟩

/-- C4, amended: for every constructed Task, exactly one of
(`input_files` truthy i.e. non-empty, `identifier` truthy i.e. non-null
and non-empty) holds, and the stored fields are the passed ones;
construction succeeds exactly when the two truthinesses differ (so
constructing with both truthy or neither truthy fails). -/
theorem c4_constructor_truthiness_xor (files : List String) (id : Option String)
    (pf : Option String) (opts : Tree) :
    ((Task.new files id pf opts).isSome ↔ truthyFiles files ≠ truthyIdent id)
    ∧ ∀ t, Task.new files id pf opts = some t →
        truthyFiles t.input_files_or_empty ≠ truthyIdent t.identifier
        ∧ t.input_files_or_empty = files ∧ t.identifier = id := by
  constructor
  · unfold Task.new
    split
    case isTrue hc => simp [hc]
    case isFalse hc => simp [hc]
  · intro t h
    rcases Task.new_eq_some h with ⟨hc, ht⟩
    subst ht
    exact ⟨hc, rfl, rfl⟩

/-- C4, witness for the amended theorem: both directions instantiated at
concrete inputs. -/
theorem c4_constructor_truthiness_xor_witness :
    ((Task.new ["a"] Option.none Option.none Tree.pynone).isSome
        ↔ truthyFiles ["a"] ≠ truthyIdent Option.none)
    ∧ (truthyFiles (Task.mk ["a"] Option.none Option.none Tree.pynone).input_files_or_empty
        ≠ truthyIdent (Task.mk ["a"] Option.none Option.none Tree.pynone).identifier) :=
  ⟨(c4_constructor_truthiness_xor ["a"] Option.none Option.none Tree.pynone).1,
   ((c4_constructor_truthiness_xor ["a"] Option.none Option.none Tree.pynone).2
      ⟨["a"], Option.none, Option.none, Tree.pynone⟩ rfl).1⟩

/-- C5: the default `cmdline` on any file-based task (constructed via
`with_files`) is exactly `[executable] + options + list(task.input_files)`,
with the options kept in the given order. -/
theorem c5_cmdline_default (exe : String) (opts : List String) (files : List String)
    (pf : Option String) (topts : Tree) (t : Task) (rl : ResourceLimits)
    (h : Task.with_files files pf topts = some t) :
    cmdline exe opts t rl = some (exe :: (opts ++ files))
    ∧ t.input_files = Except.ok files := by
  rcases Task.new_eq_some h with ⟨hc, ht⟩
  subst ht
  have hne : truthyFiles files = true := by
    cases hf : truthyFiles files
    · exact absurd (hf ▸ hc) (by simp [truthyIdent])
    · rfl
  have hemp : files.isEmpty = false := by
    simpa [truthyFiles] using hne
  constructor
  · simp [cmdline, Task.input_files_or_identifier, hne]
  · simp [Task.input_files, hemp]

/-- C5, witness at a concrete executable, option list and task. -/
theorem c5_cmdline_default_witness :
    cmdline "exe" ["-o1", "-o2"] ⟨["a", "b"], Option.none, Option.none, Tree.pynone⟩
        (ResourceLimits.new Option.none Option.none Option.none Option.none Option.none)
      = some ["exe", "-o1", "-o2", "a", "b"]
    ∧ Task.input_files ⟨["a", "b"], Option.none, Option.none, Tree.pynone⟩
      = Except.ok ["a", "b"] :=
  c5_cmdline_default "exe" ["-o1", "-o2"] ["a", "b"] Option.none Tree.pynone
    ⟨["a", "b"], Option.none, Option.none, Tree.pynone⟩
    (ResourceLimits.new Option.none Option.none Option.none Option.none Option.none) rfl

/-- C6: the version probe returns the empty string (and raises nothing)
in every failure case: the subprocess fails to launch; stderr is
non-empty while neither use_stderr nor ignore_stderr was requested; the
exit code is non-zero (regardless of what stdout holds). -/
theorem c6_version_probe_failures_return_empty (p : ProcResult) (us ig : Bool)
    (lp : Option String) :
    version_from_tool Option.none us ig lp = ""
    ∧ (p.stderr ≠ "" → version_from_tool (some p) false false lp = "")
    ∧ (p.returncode ≠ 0 → version_from_tool (some p) us ig lp = "") := by
  refine ⟨rfl, fun hs => ?_, fun hr => ?_⟩
  · simp [version_from_tool, bne_iff_ne, hs]
  · unfold version_from_tool
    by_cases hg : (p.stderr != "" && !us && !ig) = true
    · simp [hg]
    · simp [hg, bne_iff_ne, hr]

/-- C6, witness: the three failure cases at concrete processes — launch
failure; stderr `"err"` with both flags false; exit code 1 with a
plausible version on stdout. -/
theorem c6_version_probe_failures_return_empty_witness :
    version_from_tool Option.none false false Option.none = ""
    ∧ version_from_tool (some ⟨"out", "err", 0⟩) false false Option.none = ""
    ∧ version_from_tool (some ⟨"1.2.3", "", 1⟩) false false Option.none = "" :=
  ⟨(c6_version_probe_failures_return_empty ⟨"", "", 0⟩ false false Option.none).1,
   (c6_version_probe_failures_return_empty ⟨"out", "err", 0⟩ false false
      Option.none).2.1 (by decide),
   (c6_version_probe_failures_return_empty ⟨"1.2.3", "", 1⟩ false false
      Option.none).2.2 (by decide)⟩

/-- C7: on a successful probe (zero exit code, no ambiguous stderr) the
result is the stripped stdout-or-stderr (per use_stderr); with a
non-empty line p3 it is the stripped remainder of the first line
starting with that p3, or `""` when no line matches; in particular
output `"tool version 1.2.3"` with p3 `"tool version"` gives
`"1.2.3"`. -/
theorem c7_version_probe_success (p : ProcResult) (us ig : Bool) (lp : String)
    (hok : p.stderr = "" ∨ us = true ∨ ig = true)
    (hrc : p.returncode = 0) (hlp : lp ≠ "") :
    (version_from_tool (some p) us ig (some lp)
        = (match (pySplitlines (pyStrip (if us then p.stderr else p.stdout))).find?
              (fun l => pyStartsWith l lp) with
           | some l => pyStrip (pyDropChars l lp.data.length)
           | Option.none => ""))
    ∧ version_from_tool (some p) us ig Option.none
        = pyStrip (if us then p.stderr else p.stdout)
    ∧ version_from_tool (some ⟨"tool version 1.2.3", "", 0⟩) false false
        (some "tool version") = "1.2.3" := by
  have hg : (p.stderr != "" && !us && !ig) = false := by
    rcases hok with h1 | h1 | h1 <;> simp [h1]
  have hr : (p.returncode != 0) = false := by
    simp [hrc]
  have hl : (lp != "") = true := by
    simp [bne_iff_ne, hlp]
  refine ⟨?_, ?_, rfl⟩
  · simp only [version_from_tool, hg, hr, hl, Bool.false_eq_true, if_false, if_true,
      firstMatchingVersionLine, head?_filter_eq_find?]
  · simp only [version_from_tool, hg, hr, Bool.false_eq_true, if_false]

/-- C7, witness: the success path at the concrete process of the claim's
example. -/
theorem c7_version_probe_success_witness :
    version_from_tool (some ⟨"tool version 1.2.3", "", 0⟩) false false
        (some "tool version") = "1.2.3" :=
  (c7_version_probe_success ⟨"tool version 1.2.3", "", 0⟩ false false "tool version"
    (Or.inl rfl) rfl (by decide)).2.2

/-- C8: the options value is deep-copied at construction: for a task
built from any heap (with the caller's mutable options structure living
in that heap), the stored options equal the deep copy taken at
construction time, and the adapter's later view of them is the same
under any subsequent heap mutation `m`. -/
theorem c8_options_deepcopied_at_construction (h : Heap) (fuel : Nat)
    (fv : PyVal) (id : Option String) (pf : Option String) (v : PyVal)
    (t : Task) (m : Heap → Heap)
    (hc : Task.fromHeap h fuel fv id pf v = some t) :
    optionsView t (m h) = optionsView t h
    ∧ some (optionsView t h) = deepcopy fuel h v := by
  refine ⟨rfl, ?_⟩
  unfold Task.fromHeap at hc
  cases e1 : readStrings h fv with
  | none => rw [e1] at hc; cases hc
  | some files =>
    cases e2 : deepcopy fuel h v with
    | none => rw [e1, e2] at hc; cases hc
    | some opts =>
      rw [e1, e2] at hc
      rcases Task.new_eq_some hc with ⟨-, ht⟩
      subst ht
      rfl

/-- C8, witness: a concrete heap holding the caller's file list at
address 0 and a mutable options list at address 1; after the mutation
that overwrites address 1, the constructed task's view of its options is
still the construction-time deep copy. -/
theorem c8_options_deepcopied_at_construction_witness :
    optionsView ⟨["a"], Option.none, Option.none, Tree.node [Tree.prim "x"]⟩
        (mutateSet [[PyVal.prim "a"], [PyVal.prim "x"]] 1 [PyVal.prim "y"])
      = optionsView ⟨["a"], Option.none, Option.none, Tree.node [Tree.prim "x"]⟩
          [[PyVal.prim "a"], [PyVal.prim "x"]]
    ∧ some (optionsView ⟨["a"], Option.none, Option.none, Tree.node [Tree.prim "x"]⟩
          [[PyVal.prim "a"], [PyVal.prim "x"]])
      = deepcopy 2 [[PyVal.prim "a"], [PyVal.prim "x"]] (PyVal.ref 1) :=
  c8_options_deepcopied_at_construction [[PyVal.prim "a"], [PyVal.prim "x"]] 2
    (PyVal.ref 0) Option.none Option.none (PyVal.ref 1)
    ⟨["a"], Option.none, Option.none, Tree.node [Tree.prim "x"]⟩
    (fun hh => mutateSet hh 1 [PyVal.prim "y"]) rfl

/-- C9, counterexample: a legacy-generation tool-info class (`BaseTool`
base) that overrides nothing — in particular neither `name` nor
`executable` — is instantiable, because `BaseTool` is a plain class
whose `name` returns the `"UNKOWN"` placeholder only at call time. -/
theorem c9_legacy_variant_without_overrides_instantiable :
    instantiable ⟨Generation.baseTool, []⟩ = true
    ∧ ([] : List Method).contains Method.name = false
    ∧ ([] : List Method).contains Method.executable = false
    ∧ legacyNameDefault = "UNKOWN" := by
  refine ⟨rfl, rfl, rfl, rfl⟩

/-- C9, amended: for the current generation (`BaseTool2`, metaclass
`ABCMeta` with `name` and `executable` abstract) a variant omitting one
of the required overrides cannot be instantiated; a legacy `BaseTool`
variant always can, whatever it overrides. -/
theorem c9_basetool2_abstract_method_enforcement (ovr : List Method)
    (h : Method.name ∉ ovr ∨ Method.executable ∉ ovr) :
    instantiable ⟨Generation.baseTool2, ovr⟩ = false
    ∧ instantiable ⟨Generation.baseTool, ovr⟩ = true := by
  refine ⟨?_, rfl⟩
  unfold instantiable abstractMethods
  rcases h with h | h <;>
    simp [List.contains, List.elem_eq_mem, h]

/-- C9, witness for the amended theorem at the empty override set. -/
theorem c9_basetool2_abstract_method_enforcement_witness :
    instantiable ⟨Generation.baseTool2, []⟩ = false
    ∧ instantiable ⟨Generation.baseTool, []⟩ = true :=
  c9_basetool2_abstract_method_enforcement [] (Or.inl (by decide))

/-- C10: `tuple(input_files)` snapshots the caller's (possibly mutable)
sequence at construction: the stored `input_files_or_empty` equals the
passed sequence's elements in order, and mutating the caller's original
list afterwards (here: overwriting its contents in the heap) changes
what a fresh read of that list would give, but not the task's stored
tuple. -/
theorem c10_input_files_snapshot (h : Heap) (fuel : Nat) (a : Nat)
    (files newfiles : List String) (id : Option String) (pf : Option String)
    (v : PyVal) (t : Task)
    (hobj : h.get? a = some (files.map PyVal.prim))
    (hc : Task.fromHeap h fuel (PyVal.ref a) id pf v = some t) :
    t.input_files_or_empty = files
    ∧ (a < h.length →
        readStrings (mutateSet h a (newfiles.map PyVal.prim)) (PyVal.ref a)
          = some newfiles) := by
  have hrs : readStrings h (PyVal.ref a) = some files := by
    show (match h.get? a with
          | some obj => readPrims obj
          | Option.none => Option.none) = some files
    rw [hobj]
    exact readPrims_map files
  constructor
  · unfold Task.fromHeap at hc
    rw [hrs] at hc
    cases e2 : deepcopy fuel h v with
    | none => rw [e2] at hc; cases hc
    | some opts =>
      rw [e2] at hc
      rcases Task.new_eq_some hc with ⟨-, ht⟩
      subst ht
      rfl
  · intro hlt
    show (match (h.set a (newfiles.map PyVal.prim)).get? a with
          | some obj => readPrims obj
          | Option.none => Option.none) = some newfiles
    rw [get?_set_self_of_lt h a (newfiles.map PyVal.prim) hlt]
    exact readPrims_map newfiles

/-- C10, witness: caller's list `["a"]` at heap address 0; the task
stores `("a",)`; after the caller's list is overwritten to `["b"]`, a
fresh read sees `["b"]` while the task's tuple is untouched. -/
theorem c10_input_files_snapshot_witness :
    Task.input_files_or_empty ⟨["a"], Option.none, Option.none, Tree.pynone⟩ = ["a"]
    ∧ readStrings (mutateSet [[PyVal.prim "a"]] 0 [PyVal.prim "b"]) (PyVal.ref 0)
        = some ["b"] := by
  have h := c10_input_files_snapshot [[PyVal.prim "a"]] 1 0 ["a"] ["b"]
    Option.none Option.none PyVal.pynone
    ⟨["a"], Option.none, Option.none, Tree.pynone⟩ rfl rfl
  exact ⟨h.1, h.2 (by decide)⟩

end BenchExec
